import Mathlib

/-!
Shallow embedding of the gel-image-processing pipeline
(`src/app/lambda_function.py`): the JPEG classifier `_is_jpeg`, the atomic
EXIF stripper `_strip_exif`, the verifier `_exif_removed`, the per-file
orchestration `_process_file` / `_process_record`, the SSM-backed config
cache `_get_config`, and the batch entry point `lambda_handler`.

File contents seen by the imaging library are abstracted to an
`ImageData` record (format tag, EXIF tag list, abstract pixel payload, and
a structural-integrity bit for `Image.verify`); local and remote storage
are association lists keyed by path resp. (bucket, key).  External
failures that the Python code can encounter (a file whose bytes PIL
cannot identify, an I/O error, missing S3 objects, short SSM responses,
missing buckets) are part of the model; additionally the stripper takes an
explicit fault parameter injecting an I/O or encoding failure at each of
its internal steps (temp-file creation, save, atomic replace).
-/

set_option maxRecDepth 4000

namespace GelImage

/-! ### Association-list stores (local scratch directory and S3) -/

def alookup {α β : Type} [DecidableEq α] : List (α × β) → α → Option β
  | [], _ => none
  | (a, b) :: t, k => if a = k then some b else alookup t k

def aerase {α β : Type} [DecidableEq α] : List (α × β) → α → List (α × β)
  | [], _ => []
  | (a, b) :: t, k => if a = k then aerase t k else (a, b) :: aerase t k

def aset {α β : Type} [DecidableEq α] (l : List (α × β)) (k : α) (v : β) :
    List (α × β) :=
  (k, v) :: aerase l k

/-! ### Abstract image/file contents -/

/-- Errors `PIL.Image.open` can raise: `UnidentifiedImageError` (which
subclasses `OSError`) for bytes that are no recognizable image, or a plain
I/O error. -/
inductive OpenErr where
  | unidentified
  | ioError
deriving DecidableEq, Repr

/-- What the imaging library sees in a decodable image file: the declared
format tag (`img.format`), EXIF tags (`img.getexif()`), an abstract pixel
payload, and whether a structural-integrity pass (`img.verify()`)
succeeds. -/
structure ImageData where
  format : String
  exif : List (Nat × Nat)
  pixels : List Nat
  structOk : Bool
deriving DecidableEq, Repr

/-- Content of one stored file: either a decodable image or bytes on which
`Image.open` raises. -/
inductive FileContent where
  | image (d : ImageData)
  | invalid (e : OpenErr)
deriving DecidableEq, Repr

/-- A freshly created `NamedTemporaryFile` is empty; opening it with PIL
would raise `UnidentifiedImageError`. -/
def FileContent.emptyFile : FileContent := .invalid .unidentified

/-- Local scratch filesystem: path ↦ content. -/
abbrev FS := List (String × FileContent)

/-- S3 world: (bucket, key) ↦ content. -/
abbrev S3 := List ((String × String) × FileContent)

/-- `delete_object` succeeds whether or not the object exists. -/
def S3.delete (s3 : S3) (bucket key : String) : S3 :=
  aerase s3 (bucket, key)

def S3.upload (s3 : S3) (bucket key : String) (c : FileContent) : S3 :=
  aset s3 (bucket, key) c

def S3.lookup (s3 : S3) (bucket key : String) : Option FileContent :=
  alookup s3 (bucket, key)

/-! ### `os.path.splitext` and the extension check of `_is_jpeg` -/

/-- The basename of a path: the characters after the last `/`. -/
def basenameChars (p : String) : List Char :=
  (p.toList.reverse.takeWhile (fun c => c ≠ '/')).reverse

/-- CPython `os.path.splitext` extension rule, applied to a basename: the
extension starts at the last dot, provided some earlier character of the
basename is not a dot (so `.bashrc` and `...` have no extension). -/
def extOfBase (b : List Char) : List Char :=
  let r := b.reverse
  let afterDot := r.takeWhile (fun c => c ≠ '.')
  if afterDot.length = r.length then []
  else
    let stemRev := r.drop (afterDot.length + 1)
    if stemRev.any (fun c => c ≠ '.') then '.' :: afterDot.reverse else []

/-- `os.path.splitext(p)[1]`. -/
def extOf (p : String) : String :=
  String.mk (extOfBase (basenameChars p))

def lowerStr (s : String) : String :=
  String.mk (s.toList.map Char.toLower)

/-- The extension gate of `_is_jpeg`:
`os.path.splitext(file_path)[1].lower() in [".jpg", ".jpeg"]`. -/
def hasJpegExt (p : String) : Bool :=
  let e := lowerStr (extOf p)
  e = ".jpg" || e = ".jpeg"

/-! ### `_is_jpeg` — the JPEG classifier -/

/-- Errors that PIL can raise inside the `try` block of `_is_jpeg`:
`UnidentifiedImageError` or an I/O error from `Image.open`, and a
`SyntaxError`-style structural error from `img.verify()`. -/
inductive JErr where
  | unidentified
  | ioError
  | syntaxError
deriving DecidableEq, Repr

/-- `Image.open(path)`: raises on a missing file (I/O error) or on bytes
that are not a recognizable image. -/
def openImage : Option FileContent → Except JErr ImageData
  | none => .error .ioError
  | some (.invalid .unidentified) => .error .unidentified
  | some (.invalid .ioError) => .error .ioError
  | some (.image d) => .ok d

/-- `img.verify()`: raises a structural error iff the image is broken. -/
def verifyImage (d : ImageData) : Except JErr Unit :=
  if d.structOk then .ok () else .error .syntaxError

/-- `_is_jpeg` with its exception flow explicit: the body may raise, and
the `except UnidentifiedImageError` / `except (IOError, SyntaxError)`
clauses convert each error into `False`.  `c` is the content stored at
`path` (`none` = no such file). -/
def isJpegRun (path : String) (c : Option FileContent) : Except JErr Bool :=
  if hasJpegExt path = false then .ok false
  else
    let body : Except JErr Bool :=
      match openImage c with
      | .error e => .error e
      | .ok d =>
          if d.format = "JPEG" then
            match openImage c with
            | .error e => .error e
            | .ok d2 =>
                match verifyImage d2 with
                | .error e => .error e
                | .ok _ => .ok true
          else .ok false
    match body with
    | .ok b => .ok b
    | .error .unidentified => .ok false
    | .error .ioError => .ok false
    | .error .syntaxError => .ok false

/-- `_is_jpeg` as the total boolean classifier it implements: extension
gate, format tag exactly `"JPEG"`, and a passing structural verify; every
PIL error is a negative classification. -/
def isJpeg (path : String) (c : Option FileContent) : Bool :=
  hasJpegExt path &&
    (match c with
     | some (.image d) => d.format = "JPEG" && d.structOk
     | _ => false)

/-! ### `_strip_exif` — the atomic EXIF stripper -/

/-- Fault injected into one run of `_strip_exif`: no fault, an `OSError`
while creating the temp file, an `OSError`/`ValueError` while saving the
re-encoded image to the temp file, or an `OSError` from `os.replace`. -/
inductive FaultSpec where
  | noFault
  | failMkTemp
  | failSave (isValueError : Bool)
  | failReplace
deriving DecidableEq, Repr

/-- The two wrapped errors `_strip_exif` re-raises: `OSError` ("Failed to
access file for EXIF stripping") or `ValueError` ("Failed to process
image for EXIF stripping"). -/
inductive StripErr where
  | accessFailure
  | encodingFailure
deriving DecidableEq, Repr

deriving instance DecidableEq for Except

structure StripOut where
  fs : FS
  out : Except StripErr Unit
deriving DecidableEq

/-- `img.save(temp_path, format="JPEG", exif=b"")`: the written file is a
JPEG with no EXIF tags and the same abstract pixel payload. -/
def reencodeNoExif (d : ImageData) : ImageData :=
  { format := "JPEG", exif := [], pixels := d.pixels, structOk := true }

/-- `_strip_exif(path)` over scratch filesystem `fs`; `tempName` is the
fresh name `NamedTemporaryFile` picks in the same directory.  Mirrors the
Python control flow: inspect EXIF (open may raise, caught as `OSError`
since `UnidentifiedImageError` subclasses it); return at once when no
EXIF; create temp file; save the re-encoding to it; `os.replace` it over
the original.  Each `except` branch unlinks the temp file iff `temp_path`
was already assigned, then re-raises the wrapped error. -/
def stripExif (fault : FaultSpec) (path tempName : String) (fs : FS) :
    StripOut :=
  match alookup fs path with
  | none => ⟨fs, .error .accessFailure⟩
  | some (.invalid _) => ⟨fs, .error .accessFailure⟩
  | some (.image d) =>
      if d.exif.isEmpty then ⟨fs, .ok ()⟩
      else if fault = .failMkTemp then
        -- NamedTemporaryFile raised: temp_path is still None, nothing to unlink
        ⟨fs, .error .accessFailure⟩
      else
        let fs1 := aset fs tempName FileContent.emptyFile
        match fault with
        | .failSave isValueError =>
            -- save raised: unlink the temp file, re-raise wrapped
            ⟨aerase fs1 tempName,
             .error (if isValueError then .encodingFailure else .accessFailure)⟩
        | .failReplace =>
            -- save completed, os.replace raised: temp unlinked, original untouched
            let fs2 := aset fs1 tempName (.image (reencodeNoExif d))
            ⟨aerase fs2 tempName, .error .accessFailure⟩
        | _ =>
            let fs2 := aset fs1 tempName (.image (reencodeNoExif d))
            ⟨aerase (aset fs2 path (.image (reencodeNoExif d))) tempName, .ok ()⟩

/-! ### `_exif_removed` — the post-strip verifier -/

/-- `_exif_removed` catches every exception only to log and re-raise, so
an unopenable file propagates as an error; otherwise it reports whether
`img.getexif()` is empty. -/
def exifRemoved (fs : FS) (path : String) : Except Unit Bool :=
  match alookup fs path with
  | none => .error ()
  | some (.invalid _) => .error ()
  | some (.image d) => .ok d.exif.isEmpty

/-! ### `_process_file` — classify, strip, verify, relocate-or-discard -/

structure PFOut where
  fs : FS
  s3 : S3
  /-- An exception escaped `_process_file` (only possible from the final
  upload reading a scratch file that vanished — unreachable after a
  successful verify, but the model keeps the raise explicit). -/
  raised : Bool
deriving DecidableEq

/-- `_process_file(file_path, key, ingest_bucket, processed_bucket, ...)`:
classify; on failure delete the source and stop.  Strip; any raised error
is caught, source deleted, stop.  Verify; a raised error or remaining
EXIF deletes the source.  Otherwise upload the scratch copy to the
processed bucket under the same key and delete the source. -/
def processFile (fault : FaultSpec) (fs : FS) (s3 : S3)
    (localPath tempName key ingestBucket processedBucket : String) : PFOut :=
  if isJpeg localPath (alookup fs localPath) = false then
    ⟨fs, S3.delete s3 ingestBucket key, false⟩
  else
    let r := stripExif fault localPath tempName fs
    match r.out with
    | .error _ => ⟨r.fs, S3.delete s3 ingestBucket key, false⟩
    | .ok _ =>
        match exifRemoved r.fs localPath with
        | .error _ => ⟨r.fs, S3.delete s3 ingestBucket key, false⟩
        | .ok false => ⟨r.fs, S3.delete s3 ingestBucket key, false⟩
        | .ok true =>
            match alookup r.fs localPath with
            | some c =>
                ⟨r.fs,
                 S3.delete (S3.upload s3 processedBucket key c) ingestBucket key,
                 false⟩
            | none => ⟨r.fs, s3, true⟩

/-! ### `_process_record` — size gate, download, process, cleanup -/

/-- One S3 event record: bucket name, object key, and the optional
declared object size (`record["s3"]["object"].get("size")`). -/
structure Record where
  bucket : String
  key : String
  size : Option Nat
deriving DecidableEq, Repr

/-- Exceptions that can escape `_process_record` in the model: a failed
`download_file` (object missing from S3), or the unreachable raise kept
explicit in `processFile`. -/
inductive RecErr where
  | downloadFailed
  | processRaised
deriving DecidableEq, Repr

structure PROut where
  res : Except RecErr Unit
  s3 : S3
  /-- Final state of the scratch directory for this record. -/
  localFS : FS
  /-- Number of `download_file` calls issued. -/
  downloads : Nat
deriving DecidableEq

/-- The name `NamedTemporaryFile(delete=False, suffix=ext)` produces for a
key: a dotless base plus the key's extension, so the scratch path has the
same `splitext` extension as the key. -/
def scratchPath (key : String) : String :=
  "/tmp/tmpscratch" ++ extOf key

/-- `_process_record(record, processed_bucket, file_max_size, ...)`:
delete the source at once when the declared size is missing or exceeds
the maximum (no download); otherwise create the scratch file, download
into it, run `_process_file`, and in the `finally` block unlink the
scratch file. -/
def processRecord (fault : FaultSpec) (r : Record)
    (processedBucket : String) (fileMaxSize : Nat) (s3 : S3) : PROut :=
  match r.size with
  | none => ⟨.ok (), S3.delete s3 r.bucket r.key, [], 0⟩
  | some size =>
      if size > fileMaxSize then
        ⟨.ok (), S3.delete s3 r.bucket r.key, [], 0⟩
      else
        let localPath := scratchPath r.key
        let fs0 : FS := aset [] localPath FileContent.emptyFile
        match S3.lookup s3 r.bucket r.key with
        | none =>
            -- download raised ClientError; finally: unlink the scratch file
            ⟨.error .downloadFailed, s3, aerase fs0 localPath, 1⟩
        | some c =>
            let fs1 := aset fs0 localPath c
            let pf := processFile fault fs1 s3 localPath
              (localPath ++ ".striptmp") r.key r.bucket processedBucket
            ⟨if pf.raised then .error .processRaised else .ok (),
             pf.s3, aerase pf.fs localPath, 1⟩

/-! ### `_get_config` — SSM-backed config cache with a 300 s TTL -/

/-- The validated configuration tuple
`(ingest_bucket, processed_bucket, file_max_size, processed_kms_key_arn)`. -/
structure Config where
  ingestBucket : String
  processedBucket : String
  fileMaxSize : Nat
  kmsKeyArn : String
deriving DecidableEq, Repr

/-- The module-level cache: `_param_cache` (empty dict or the four cached
fields) and `_param_cache_timestamp`. -/
structure CacheState where
  cache : Option Config
  timestamp : Option Nat
deriving DecidableEq, Repr

/-- The external world `_get_config` talks to: whether `get_parameters`
itself raises `ClientError`, the parameter list it returns otherwise, the
buckets `head_bucket` accepts, and the project name used to build
parameter names. -/
structure ParamStoreEnv where
  transportFail : Bool
  params : List (String × String)
  existingBuckets : List String
  projectName : String

structure GetOut where
  ret : Option Config
  state : CacheState
  /-- `get_parameters` calls issued. -/
  ssmCalls : Nat
  /-- `head_bucket` calls issued. -/
  headCalls : Nat
deriving DecidableEq, Repr

def PARAM_CACHE_TTL_SECONDS : Nat := 300

def DEFAULT_MAX_FILE_SIZE : Nat := 10485760

def paramName (env : ParamStoreEnv) (leaf : String) : String :=
  "/" ++ env.projectName ++ "/" ++ leaf

/-- `{param["Name"]: param["Value"] for param in response["Parameters"]}`
followed by `params.get(name)`: last binding of a name wins. -/
def lookupParam (resp : List (String × String)) (name : String) :
    Option String :=
  (resp.reverse.find? (fun p => p.1 = name)).map (fun p => p.2)

def parseNatChars : List Char → Nat → Option Nat
  | [], acc => some acc
  | c :: t, acc =>
      if c.isDigit then parseNatChars t (acc * 10 + (c.toNat - '0'.toNat))
      else none

/-- Python `int(s)` on the strings a size parameter can sensibly hold:
a non-empty all-digit literal parses, anything else raises `ValueError`
(modelled `none`). -/
def pyIntNat (s : String) : Option Nat :=
  match s.toList with
  | [] => none
  | l => parseNatChars l 0

/-- Python `str.strip()`. -/
def stripStr (s : String) : String :=
  String.mk
    (((s.toList.dropWhile Char.isWhitespace).reverse.dropWhile
        Char.isWhitespace).reverse)

/-- The bucket validation
`not bucket or not isinstance(bucket, str) or not bucket.strip()`. -/
def bucketInvalid : Option String → Bool
  | none => true
  | some s => stripStr s = ""

/-- The fetch path of `_get_config` (entered on a cache miss or after the
stale entry was cleared): one `get_parameters` call, the count check,
integer parsing of `max-file-size` with the 10 MiB fallback, bucket
validation with a `head_bucket` existence probe each, the KMS ARN
presence check, and on success the atomic cache update with the fetch
timestamp.  Failures return the four `None`s (modelled `none`) and leave
the incoming cache state untouched. -/
def fetchConfig (env : ParamStoreEnv) (now : Nat) (st : CacheState) :
    GetOut :=
  if env.transportFail then ⟨none, st, 1, 0⟩
  else if env.params.length ≠ 4 then ⟨none, st, 1, 0⟩
  else
    let ingest := lookupParam env.params (paramName env "ingest-bucket")
    let processed := lookupParam env.params (paramName env "processed-bucket")
    let kms := lookupParam env.params (paramName env "processed-kms-key-arn")
    let sizeStr :=
      (lookupParam env.params (paramName env "max-file-size")).getD "10485760"
    let fileMax := (pyIntNat sizeStr).getD DEFAULT_MAX_FILE_SIZE
    if bucketInvalid ingest then ⟨none, st, 1, 0⟩
    else if (env.existingBuckets.contains (ingest.getD "")) = false then
      ⟨none, st, 1, 1⟩
    else if bucketInvalid processed then ⟨none, st, 1, 1⟩
    else if (env.existingBuckets.contains (processed.getD "")) = false then
      ⟨none, st, 1, 2⟩
    else if kms.getD "" = "" then ⟨none, st, 1, 2⟩
    else
      let cfg : Config :=
        ⟨ingest.getD "", processed.getD "", fileMax, kms.getD ""⟩
      ⟨some cfg, ⟨some cfg, some now⟩, 1, 2⟩

/-- `_get_config()`: a non-empty cache with a timestamp younger than the
TTL is returned with no external call; a stale entry is cleared and the
fetch path runs on the cleared state; an empty cache goes straight to the
fetch path. -/
def getConfig (env : ParamStoreEnv) (now : Nat) (st : CacheState) : GetOut :=
  match st.cache, st.timestamp with
  | some c, some ts =>
      if now - ts < PARAM_CACHE_TTL_SECONDS then ⟨some c, st, 0, 0⟩
      else fetchConfig env now ⟨none, none⟩
  | _, _ => fetchConfig env now st

/-! ### `lambda_handler` — the batch entry point -/

/-- The dict `lambda_handler` returns: either the configuration-error
shape `{"status": "error", "message": ...}` (which carries no counters),
or the full report `{"status", "processed", "total", "failed"}`. -/
inductive HandlerResult where
  | configError (message : String)
  | report (status : String) (processed total failed : Nat)
deriving DecidableEq, Repr

/-- `result.get("processed")`. -/
def HandlerResult.processedCount : HandlerResult → Option Nat
  | .configError _ => none
  | .report _ p _ _ => some p

/-- `result.get("failed")`. -/
def HandlerResult.failedCount : HandlerResult → Option Nat
  | .configError _ => none
  | .report _ _ _ f => some f

/-- `result.get("total")`. -/
def HandlerResult.totalCount : HandlerResult → Option Nat
  | .configError _ => none
  | .report _ _ t _ => some t

structure RunOut where
  processed : Nat
  failedKeys : List String
  s3 : S3
  downloads : Nat

/-- The `for record in event.get("Records", [])` loop: each record either
completes (`processed_count += 1`) or raises, in which case its key is
appended to `failed_records`.  `i` indexes into the fault assignment. -/
def runRecords (faults : Nat → FaultSpec) (c : Config) :
    Nat → List Record → S3 → RunOut
  | _, [], s3 => ⟨0, [], s3, 0⟩
  | i, r :: tl, s3 =>
      let pr := processRecord (faults i) r c.processedBucket c.fileMaxSize s3
      let rest := runRecords faults c (i + 1) tl pr.s3
      match pr.res with
      | .ok _ =>
          ⟨rest.processed + 1, rest.failedKeys, rest.s3,
           pr.downloads + rest.downloads⟩
      | .error _ =>
          ⟨rest.processed, r.key :: rest.failedKeys, rest.s3,
           pr.downloads + rest.downloads⟩

structure HandlerOut where
  result : HandlerResult
  s3 : S3
  cacheState : CacheState
  downloads : Nat

/-- `lambda_handler(event, context)`: fetch config once (`not
ingest_bucket` aborts the batch with the no-counter error dict), loop
over the records, then classify the batch outcome from
`processed_count` versus `record_count`. -/
def lambdaHandler (env : ParamStoreEnv) (now : Nat) (st : CacheState)
    (event : List Record) (s3 : S3) (faults : Nat → FaultSpec) :
    HandlerOut :=
  let g := getConfig env now st
  match g.ret with
  | none => ⟨.configError "Configuration retrieval failed", s3, g.state, 0⟩
  | some c =>
      if c.ingestBucket = "" then
        ⟨.configError "Configuration retrieval failed", s3, g.state, 0⟩
      else
        let recordCount := event.length
        let run := runRecords faults c 0 event s3
        let status :=
          if run.processed = 0 ∧ 0 < recordCount then "error"
          else if run.processed = recordCount then "success"
          else "partial_failure"
        ⟨.report status run.processed recordCount run.failedKeys.length,
         run.s3, g.state, run.downloads⟩

/-! ### Concrete batch scenario (2 valid JPEGs + 5 invalid inputs) -/

def jpegWithExif : FileContent := .image ⟨"JPEG", [(274, 1)], [7, 7], true⟩

def jpegNoExif : FileContent := .image ⟨"JPEG", [], [3, 4], true⟩

/-- A decodable image whose format tag is PNG, not JPEG. -/
def pngImage : FileContent := .image ⟨"PNG", [(274, 1)], [9], true⟩

def junkBytes : FileContent := .invalid .unidentified

/-- A parameter-store environment holding all four parameters, with both
buckets existing and a 1000-byte size limit. -/
def envOk : ParamStoreEnv :=
  { transportFail := false
    params := [("/gel-exifstrip/ingest-bucket", "ingest"),
               ("/gel-exifstrip/processed-bucket", "processed"),
               ("/gel-exifstrip/processed-kms-key-arn", "arn:aws:kms:k1"),
               ("/gel-exifstrip/max-file-size", "1000")]
    existingBuckets := ["ingest", "processed"]
    projectName := "gel-exifstrip" }

/-- The same environment with only 3 of the 4 parameters returned. -/
def envThreeParams : ParamStoreEnv :=
  { envOk with
      params := [("/gel-exifstrip/ingest-bucket", "ingest"),
                 ("/gel-exifstrip/processed-bucket", "processed"),
                 ("/gel-exifstrip/processed-kms-key-arn", "arn:aws:kms:k1")] }

/-- Ingest bucket holding 2 valid unique JPEGs (`a.jpg` with metadata,
`b.jpg` without) and 5 invalid inputs: wrong extension (`c.png`,
`g.txt`), wrong declared format (`d.jpg` is PNG inside), oversized
(`e.jpg`), and a non-image (`f.jpg`). -/
def batchS3 : S3 :=
  [(("ingest", "a.jpg"), jpegWithExif),
   (("ingest", "b.jpg"), jpegNoExif),
   (("ingest", "c.png"), pngImage),
   (("ingest", "d.jpg"), pngImage),
   (("ingest", "e.jpg"), jpegWithExif),
   (("ingest", "f.jpg"), junkBytes),
   (("ingest", "g.txt"), junkBytes)]

def batchRecords : List Record :=
  [⟨"ingest", "a.jpg", some 100⟩,
   ⟨"ingest", "b.jpg", some 100⟩,
   ⟨"ingest", "c.png", some 100⟩,
   ⟨"ingest", "d.jpg", some 100⟩,
   ⟨"ingest", "e.jpg", some 5000⟩,
   ⟨"ingest", "f.jpg", some 100⟩,
   ⟨"ingest", "g.txt", some 100⟩]

def noFaults : Nat → FaultSpec := fun _ => .noFault

def emptyCache : CacheState := ⟨none, none⟩

def batchOut : HandlerOut :=
  lambdaHandler envOk 0 emptyCache batchRecords batchS3 noFaults

/-- The batch outcome when the parameter store returns only 3 of the 4
expected parameters. -/
def threeParamOut : HandlerOut :=
  lambdaHandler envThreeParams 0 emptyCache batchRecords batchS3 noFaults

/-! ### Theorems -/

theorem alookup_aerase_self {α β : Type} [DecidableEq α]
    (l : List (α × β)) (k : α) : alookup (aerase l k) k = none := by
  induction l with
  | nil => rfl
  | cons hd t ih =>
      obtain ⟨a, b⟩ := hd
      by_cases h : a = k
      · simp [aerase, h, ih]
      · simp [aerase, alookup, h, ih]

theorem alookup_aerase_ne {α β : Type} [DecidableEq α]
    (l : List (α × β)) (k q : α) (h : q ≠ k) :
    alookup (aerase l k) q = alookup l q := by
  induction l with
  | nil => rfl
  | cons hd t ih =>
      obtain ⟨a, b⟩ := hd
      by_cases ha : a = k
      · subst ha
        simp [aerase, alookup, Ne.symm h, ih]
      · simp [aerase, alookup, ha, ih]

theorem alookup_aset_self {α β : Type} [DecidableEq α]
    (l : List (α × β)) (k : α) (v : β) : alookup (aset l k v) k = some v := by
  simp [aset, alookup]

theorem alookup_aset_ne {α β : Type} [DecidableEq α]
    (l : List (α × β)) (k q : α) (v : β) (h : q ≠ k) :
    alookup (aset l k v) q = alookup l q := by
  simp [aset, alookup, Ne.symm h, alookup_aerase_ne l k q h]

/-- C4: The JPEG classifier never raises past its boundary: for every
input path and file content, the exception-explicit run of `_is_jpeg`
returns `ok` of the total boolean classification — every decode, format
or structural error raised while inspecting the file is caught and
converted into a negative classification. -/
theorem C4_classifier_never_raises (p : String) (c : Option FileContent) :
    isJpegRun p c = Except.ok (isJpeg p c) := by
  cases hext : hasJpegExt p with
  | false => simp [isJpegRun, isJpeg, hext]
  | true =>
      rcases c with _ | (d | e)
      · simp [isJpegRun, isJpeg, hext, openImage]
      · by_cases hf : d.format = "JPEG"
        · cases hs : d.structOk <;>
            simp [isJpegRun, isJpeg, hext, openImage, verifyImage, hf, hs]
        · simp [isJpegRun, isJpeg, hext, openImage, hf]
      · cases e <;> simp [isJpegRun, isJpeg, hext, openImage]

/-- C3: Whenever `_strip_exif` fails (any I/O or encoding error, at any
of its steps), the error is surfaced to the caller as a thrown error, the
original file's content is unchanged, and no orphaned temporary file
remains. -/
theorem C3_strip_failure_atomic (fault : FaultSpec) (path tempName : String)
    (fs : FS) (e : StripErr)
    (hfresh : alookup fs tempName = none) (hne : tempName ≠ path)
    (herr : (stripExif fault path tempName fs).out = .error e) :
    alookup (stripExif fault path tempName fs).fs path = alookup fs path ∧
      alookup (stripExif fault path tempName fs).fs tempName = none := by
  rcases hlp : alookup fs path with _ | (d | e2)
  · simp [stripExif, hlp, hfresh]
  · by_cases hex : d.exif.isEmpty
    · exfalso
      simp [stripExif, hlp, hex] at herr
    · cases fault with
      | noFault =>
          exfalso
          simp [stripExif, hlp, hex] at herr
      | failMkTemp => simp [stripExif, hlp, hex, hfresh]
      | failSave b =>
          refine ⟨?_, ?_⟩
          · simp only [stripExif, hlp, hex]
            simp only [Bool.false_eq_true, if_false, reduceCtorEq, if_neg]
            rw [alookup_aerase_ne _ _ _ (Ne.symm hne),
              alookup_aset_ne _ _ _ _ (Ne.symm hne)]
            exact hlp
          · simp only [stripExif, hlp, hex]
            simp only [Bool.false_eq_true, if_false, reduceCtorEq, if_neg]
            exact alookup_aerase_self _ _
      | failReplace =>
          refine ⟨?_, ?_⟩
          · simp only [stripExif, hlp, hex]
            simp only [Bool.false_eq_true, if_false, reduceCtorEq, if_neg]
            rw [alookup_aerase_ne _ _ _ (Ne.symm hne),
              alookup_aset_ne _ _ _ _ (Ne.symm hne),
              alookup_aset_ne _ _ _ _ (Ne.symm hne)]
            exact hlp
          · simp only [stripExif, hlp, hex]
            simp only [Bool.false_eq_true, if_false, reduceCtorEq, if_neg]
            exact alookup_aerase_self _ _
  · simp [stripExif, hlp, hfresh]

/-- Closed check of C3 at a concrete input: a `ValueError` injected while
saving the re-encoding of `a.jpg` surfaces as the wrapped encoding
failure and leaves the scratch directory exactly as it was. -/
theorem C3_strip_failure_atomic_witness :
    alookup [("a.jpg", jpegWithExif)] "a.jpg.striptmp" = none ∧
      "a.jpg.striptmp" ≠ "a.jpg" ∧
      (stripExif (.failSave true) "a.jpg" "a.jpg.striptmp"
          [("a.jpg", jpegWithExif)]).out = .error .encodingFailure ∧
      alookup (stripExif (.failSave true) "a.jpg" "a.jpg.striptmp"
          [("a.jpg", jpegWithExif)]).fs "a.jpg" =
        alookup [("a.jpg", jpegWithExif)] "a.jpg" ∧
      alookup (stripExif (.failSave true) "a.jpg" "a.jpg.striptmp"
          [("a.jpg", jpegWithExif)]).fs "a.jpg.striptmp" = none := by
  refine ⟨by decide, by decide, by decide, ?_⟩
  exact C3_strip_failure_atomic (.failSave true) "a.jpg" "a.jpg.striptmp"
    [("a.jpg", jpegWithExif)] .encodingFailure (by decide) (by decide)
    (by decide)

/-- C5: For a file recognized as a JPEG with no metadata, `_strip_exif`
returns success at once without mutating anything; for a JPEG with
metadata, after a fault-free strip succeeds the verifier reports the
metadata absent and a second strip call is a no-op. -/
theorem C5_strip_noop_idempotent (path tempName tempName2 : String)
    (fs : FS) (d : ImageData)
    (hpath : alookup fs path = some (.image d))
    (hne : tempName ≠ path) :
    (d.exif = [] → stripExif .noFault path tempName fs = ⟨fs, .ok ()⟩) ∧
      (d.exif ≠ [] →
        (stripExif .noFault path tempName fs).out = .ok () ∧
          exifRemoved (stripExif .noFault path tempName fs).fs path =
            .ok true ∧
          stripExif .noFault path tempName2
              (stripExif .noFault path tempName fs).fs =
            ⟨(stripExif .noFault path tempName fs).fs, .ok ()⟩) := by
  constructor
  · intro hex
    simp [stripExif, hpath, hex]
  · intro hex
    have hexB : d.exif.isEmpty = false := by
      cases hxe : d.exif with
      | nil => exact absurd hxe hex
      | cons a t => simp [hxe]
    have hfsEq :
        (stripExif .noFault path tempName fs).fs =
          aerase (aset (aset (aset fs tempName FileContent.emptyFile)
            tempName (.image (reencodeNoExif d))) path
            (.image (reencodeNoExif d))) tempName := by
      simp [stripExif, hpath, hexB]
    have hlook :
        alookup (stripExif .noFault path tempName fs).fs path =
          some (.image (reencodeNoExif d)) := by
      rw [hfsEq, alookup_aerase_ne _ _ _ (Ne.symm hne), alookup_aset_self]
    refine ⟨by simp [stripExif, hpath, hexB], ?_, ?_⟩
    · simp [exifRemoved, hlook, reencodeNoExif]
    · generalize hG : (stripExif .noFault path tempName fs).fs = fs2 at hlook ⊢
      simp [stripExif, hlook, reencodeNoExif]

/-- Every run of the fetch path issues exactly one `get_parameters`
call. -/
theorem fetchConfig_ssmCalls (env : ParamStoreEnv) (now : Nat)
    (st : CacheState) : (fetchConfig env now st).ssmCalls = 1 := by
  simp only [fetchConfig]
  repeat first | rfl | split

/-- C6: The config cache has a 300-second TTL: a `get` within the TTL of
the cached fetch returns the cached value with zero external calls (no
parameter-store fetch, no bucket existence probe) and leaves the state
untouched, while a `get` at or past the TTL runs the fetch path on the
cleared state and issues exactly one fresh parameter-store fetch. -/
theorem C6_cache_ttl (env : ParamStoreEnv) (now ts : Nat) (c : Config)
    (st : CacheState) (hc : st.cache = some c)
    (hts : st.timestamp = some ts) :
    (now - ts < PARAM_CACHE_TTL_SECONDS →
        getConfig env now st = ⟨some c, st, 0, 0⟩) ∧
      (PARAM_CACHE_TTL_SECONDS ≤ now - ts →
        getConfig env now st = fetchConfig env now ⟨none, none⟩ ∧
          (getConfig env now st).ssmCalls = 1) := by
  obtain ⟨sc, sts⟩ := st
  simp only at hc hts
  subst hc; subst hts
  refine ⟨fun hlt => ?_, fun hge => ?_⟩
  · simp [getConfig, hlt]
  · have hnlt : ¬ now - ts < PARAM_CACHE_TTL_SECONDS := Nat.not_lt.mpr hge
    refine ⟨by simp [getConfig, hnlt], ?_⟩
    simp [getConfig, hnlt, fetchConfig_ssmCalls]

/-- Closed check of C6: with `envOk` cached at time 0, a `get` at time
100 is a pure cache hit, and a `get` at time 400 re-fetches once. -/
theorem C6_cache_ttl_witness :
    (100 - 0 < PARAM_CACHE_TTL_SECONDS ∧
        getConfig envOk 100 ⟨(getConfig envOk 0 emptyCache).ret, some 0⟩ =
          ⟨(getConfig envOk 0 emptyCache).ret,
            ⟨(getConfig envOk 0 emptyCache).ret, some 0⟩, 0, 0⟩) ∧
      (PARAM_CACHE_TTL_SECONDS ≤ 400 - 0 ∧
        getConfig envOk 400 ⟨(getConfig envOk 0 emptyCache).ret, some 0⟩ =
          fetchConfig envOk 400 ⟨none, none⟩ ∧
        (getConfig envOk 400
            ⟨(getConfig envOk 0 emptyCache).ret, some 0⟩).ssmCalls = 1) := by
  refine ⟨⟨by decide, ?_⟩, ⟨by decide, ?_⟩⟩
  · exact (C6_cache_ttl envOk 100 0
      ⟨"ingest", "processed", 1000, "arn:aws:kms:k1"⟩
      ⟨(getConfig envOk 0 emptyCache).ret, some 0⟩ (by decide) (by decide)).1
      (by decide)
  · exact (C6_cache_ttl envOk 400 0
      ⟨"ingest", "processed", 1000, "arn:aws:kms:k1"⟩
      ⟨(getConfig envOk 0 emptyCache).ret, some 0⟩ (by decide) (by decide)).2
      (by decide)

/-- C7: A file event whose declared size is missing or strictly exceeds
the configured maximum is handled by deleting the source object
immediately: the result is success, the S3 world is exactly the source
deletion, no scratch file is created, and no download call is issued. -/
theorem C7_size_reject_never_downloads (fault : FaultSpec) (r : Record)
    (processedBucket : String) (fileMaxSize : Nat) (s3 : S3)
    (h : r.size = none ∨ ∃ n, r.size = some n ∧ fileMaxSize < n) :
    processRecord fault r processedBucket fileMaxSize s3 =
      ⟨.ok (), S3.delete s3 r.bucket r.key, [], 0⟩ := by
  rcases h with hnone | ⟨n, hn, hgt⟩
  · simp [processRecord, hnone]
  · simp [processRecord, hn, hgt]

/-- Closed check of C7: the oversized `e.jpg` event (5000 > 1000) and a
missing-size event are both discarded with zero download calls. -/
theorem C7_size_reject_never_downloads_witness :
    ((⟨"ingest", "e.jpg", some 5000⟩ : Record).size = some 5000 ∧
        1000 < 5000 ∧
        processRecord .noFault ⟨"ingest", "e.jpg", some 5000⟩ "processed"
            1000 batchS3 =
          ⟨.ok (), S3.delete batchS3 "ingest" "e.jpg", [], 0⟩) ∧
      ((⟨"ingest", "x.jpg", none⟩ : Record).size = none ∧
        processRecord .noFault ⟨"ingest", "x.jpg", none⟩ "processed" 1000
            batchS3 =
          ⟨.ok (), S3.delete batchS3 "ingest" "x.jpg", [], 0⟩) := by
  refine ⟨⟨by decide, by decide, ?_⟩, ⟨by decide, ?_⟩⟩
  · exact C7_size_reject_never_downloads .noFault
      ⟨"ingest", "e.jpg", some 5000⟩ "processed" 1000 batchS3
      (Or.inr ⟨5000, by decide, by decide⟩)
  · exact C7_size_reject_never_downloads .noFault ⟨"ingest", "x.jpg", none⟩
      "processed" 1000 batchS3 (Or.inl (by decide))

/-- C8: For every file event that passes the size check, the scratch file
is unlinked before `_process_record` returns on every exit path:
success, discard, or an exception raised during download or
processing. -/
theorem C8_scratch_always_unlinked (fault : FaultSpec) (r : Record)
    (processedBucket : String) (fileMaxSize n : Nat) (s3 : S3)
    (hn : r.size = some n) (hle : n ≤ fileMaxSize) :
    alookup (processRecord fault r processedBucket fileMaxSize s3).localFS
        (scratchPath r.key) = none := by
  have hnlt : ¬ n > fileMaxSize := Nat.not_lt.mpr hle
  simp only [processRecord, hn]
  rw [if_neg hnlt]
  cases hlk : S3.lookup s3 r.bucket r.key with
  | none => simp only [hlk]; exact alookup_aerase_self _ _
  | some c => simp only [hlk]; exact alookup_aerase_self _ _

/-- Closed check of C8 on three exit paths: a relocated valid JPEG, a
discarded invalid file, and a failed download all leave no scratch
file. -/
theorem C8_scratch_always_unlinked_witness :
    alookup (processRecord .noFault ⟨"ingest", "a.jpg", some 100⟩
        "processed" 1000 batchS3).localFS (scratchPath "a.jpg") = none ∧
      alookup (processRecord .noFault ⟨"ingest", "f.jpg", some 100⟩
          "processed" 1000 batchS3).localFS (scratchPath "f.jpg") = none ∧
      alookup (processRecord .noFault ⟨"ingest", "missing.jpg", some 100⟩
          "processed" 1000 batchS3).localFS (scratchPath "missing.jpg") =
        none :=
  ⟨C8_scratch_always_unlinked .noFault ⟨"ingest", "a.jpg", some 100⟩
      "processed" 1000 100 batchS3 (by decide) (by decide),
    C8_scratch_always_unlinked .noFault ⟨"ingest", "f.jpg", some 100⟩
      "processed" 1000 100 batchS3 (by decide) (by decide),
    C8_scratch_always_unlinked .noFault ⟨"ingest", "missing.jpg", some 100⟩
      "processed" 1000 100 batchS3 (by decide) (by decide)⟩

/-- C10: A file event whose declared size is present and at most the
configured maximum — including exactly 0 and exactly the maximum — is
never size-rejected: the processor proceeds to issue the download call
for it. -/
theorem C10_size_within_limit_downloads (fault : FaultSpec) (r : Record)
    (processedBucket : String) (fileMaxSize n : Nat) (s3 : S3)
    (hn : r.size = some n) (hle : n ≤ fileMaxSize) :
    (processRecord fault r processedBucket fileMaxSize s3).downloads = 1 := by
  have hnlt : ¬ n > fileMaxSize := Nat.not_lt.mpr hle
  simp only [processRecord, hn]
  rw [if_neg hnlt]
  cases hlk : S3.lookup s3 r.bucket r.key with
  | none => simp only [hlk]
  | some c => simp only [hlk]

/-- Closed check of C10 at the two boundary sizes: declared size 0 and
declared size exactly equal to the configured maximum both reach the
download call. -/
theorem C10_size_within_limit_downloads_witness :
    (processRecord .noFault ⟨"ingest", "a.jpg", some 0⟩ "processed" 1000
        batchS3).downloads = 1 ∧
      (processRecord .noFault ⟨"ingest", "a.jpg", some 1000⟩ "processed"
          1000 batchS3).downloads = 1 :=
  ⟨C10_size_within_limit_downloads .noFault ⟨"ingest", "a.jpg", some 0⟩
      "processed" 1000 0 batchS3 (by decide) (by decide),
    C10_size_within_limit_downloads .noFault ⟨"ingest", "a.jpg", some 1000⟩
      "processed" 1000 1000 batchS3 (by decide) (by decide)⟩

/-- Closed check of C5 at concrete inputs: stripping `b.jpg` (no EXIF) is
the identity, and after stripping `a.jpg` (with EXIF) the verifier
reports the metadata gone and a repeat strip changes nothing. -/
theorem C5_strip_noop_idempotent_witness :
    (stripExif .noFault "b.jpg" "t1" [("b.jpg", jpegNoExif)] =
        ⟨[("b.jpg", jpegNoExif)], .ok ()⟩) ∧
      ((stripExif .noFault "a.jpg" "t1" [("a.jpg", jpegWithExif)]).out =
          .ok () ∧
        exifRemoved
            (stripExif .noFault "a.jpg" "t1"
              [("a.jpg", jpegWithExif)]).fs "a.jpg" = .ok true ∧
        stripExif .noFault "a.jpg" "t2"
            (stripExif .noFault "a.jpg" "t1"
              [("a.jpg", jpegWithExif)]).fs =
          ⟨(stripExif .noFault "a.jpg" "t1"
              [("a.jpg", jpegWithExif)]).fs, .ok ()⟩) := by
  constructor
  · exact (C5_strip_noop_idempotent "b.jpg" "t1" "t2" [("b.jpg", jpegNoExif)]
      ⟨"JPEG", [], [3, 4], true⟩ (by decide) (by decide)).1 (by decide)
  · exact (C5_strip_noop_idempotent "a.jpg" "t1" "t2"
      [("a.jpg", jpegWithExif)] ⟨"JPEG", [(274, 1)], [7, 7], true⟩
      (by decide) (by decide)).2 (by decide)

/-- Each iteration of the record loop feeds exactly one of the two
counters: processed records plus failed keys always add up to the number
of records. -/
theorem runRecords_counts (faults : Nat → FaultSpec) (c : Config) :
    ∀ (records : List Record) (i : Nat) (s3 : S3),
      (runRecords faults c i records s3).processed +
        (runRecords faults c i records s3).failedKeys.length =
      records.length := by
  intro records
  induction records with
  | nil => intro i s3; rfl
  | cons r tl ih =>
      intro i s3
      simp only [runRecords]
      cases hres : (processRecord (faults i) r c.processedBucket
          c.fileMaxSize s3).res with
      | ok u =>
          simp only [hres, List.length_cons]
          have := ih (i + 1)
            (processRecord (faults i) r c.processedBucket c.fileMaxSize
              s3).s3
          omega
      | error e =>
          simp only [hres, List.length_cons]
          have := ih (i + 1)
            (processRecord (faults i) r c.processedBucket c.fileMaxSize
              s3).s3
          omega

/-- C9: whenever configuration retrieval succeeds (the handler returns
the counting report rather than the configuration-error dict), the
counters satisfy `processed + failed = total`, with `total` the number of
incoming records. -/
theorem C9_processed_plus_failed_eq_total (env : ParamStoreEnv)
    (now : Nat) (st : CacheState) (event : List Record) (s3 : S3)
    (faults : Nat → FaultSpec) (s : String) (p t f : Nat)
    (h : (lambdaHandler env now st event s3 faults).result =
      .report s p t f) :
    p + f = t := by
  cases hret : (getConfig env now st).ret with
  | none =>
      simp only [lambdaHandler, hret] at h
      exact HandlerResult.noConfusion h
  | some c =>
      simp only [lambdaHandler, hret] at h
      by_cases hib : c.ingestBucket = ""
      · rw [if_pos hib] at h
        simp at h
      · rw [if_neg hib] at h
        simp only [HandlerResult.report.injEq] at h
        obtain ⟨-, hp, ht, hf⟩ := h
        subst hp; subst ht; subst hf
        exact runRecords_counts faults c event 0 s3

/-- Closed check of C9 on the concrete 7-record batch: the handler
reports 7 processed and 0 failed out of 7, and 7 + 0 = 7. -/
theorem C9_processed_plus_failed_eq_total_witness :
    (lambdaHandler envOk 0 emptyCache batchRecords batchS3
        noFaults).result = .report "success" 7 7 0 ∧ 7 + 0 = 7 :=
  ⟨by decide,
    C9_processed_plus_failed_eq_total envOk 0 emptyCache batchRecords
      batchS3 noFaults "success" 7 7 0 (by decide)⟩

/-- C1 is false on the code: on the very batch the claim describes
(2 valid unique JPEGs, one with metadata and one without, plus 5 invalid
inputs — wrong extension twice, wrong declared format, oversized,
non-image), the handler reports `processed=7, failed=0`, not
`processed=2, failed=5`: discarding a file for failing
validation/stripping/verification still counts it as processed. -/
theorem C1_counterexample_counts :
    batchOut.result.processedCount = some 7 ∧
      batchOut.result.failedCount = some 0 ∧
      batchOut.result.totalCount = some 7 ∧
      batchOut.result.processedCount ≠ some 2 ∧
      batchOut.result.failedCount ≠ some 5 := by decide

/-- C1 (amended): on the batch of 2 valid unique JPEGs and 5 invalid
inputs the run returns `processed=7, total=7, failed=0` — every record
whose handling completes without an unexpected exception counts as
processed, discards included; the failed counter only counts records
whose processing raised.  The file movement of the scenario does hold:
both valid files end up at the destination (the stripped one without its
metadata) and are gone from the source, and all 5 invalid files are
absent from both locations. -/
theorem C1_batch_scenario :
    batchOut.result = .report "success" 7 7 0 ∧
      S3.lookup batchOut.s3 "processed" "a.jpg" =
        some (.image ⟨"JPEG", [], [7, 7], true⟩) ∧
      S3.lookup batchOut.s3 "processed" "b.jpg" = some jpegNoExif ∧
      S3.lookup batchOut.s3 "ingest" "a.jpg" = none ∧
      S3.lookup batchOut.s3 "ingest" "b.jpg" = none ∧
      S3.lookup batchOut.s3 "ingest" "c.png" = none ∧
      S3.lookup batchOut.s3 "ingest" "d.jpg" = none ∧
      S3.lookup batchOut.s3 "ingest" "e.jpg" = none ∧
      S3.lookup batchOut.s3 "ingest" "f.jpg" = none ∧
      S3.lookup batchOut.s3 "ingest" "g.txt" = none ∧
      S3.lookup batchOut.s3 "processed" "c.png" = none ∧
      S3.lookup batchOut.s3 "processed" "d.jpg" = none ∧
      S3.lookup batchOut.s3 "processed" "e.jpg" = none ∧
      S3.lookup batchOut.s3 "processed" "f.jpg" = none ∧
      S3.lookup batchOut.s3 "processed" "g.txt" = none := by decide

/-- C2 is false in one detail: when the parameter store returns only 3 of
the 4 expected parameters, the handler does return the
configuration-error dict, but that dict is
`{"status": "error", "message": ...}` — it carries no `processed` key at
all, so it does not report a processed count of 0. -/
theorem C2_counterexample_no_processed_key :
    threeParamOut.result = .configError "Configuration retrieval failed" ∧
      threeParamOut.result.processedCount ≠ some 0 ∧
      threeParamOut.result.processedCount = none := by decide

/-- C2 (amended): whenever the configuration fetch is unavailable, the
batch invocation performs no per-file processing (no download is issued
and the object store is untouched) and returns the configuration-error
result — which carries no processed/total/failed counters rather than an
explicit `processed=0`. -/
theorem C2_config_unavailable_no_processing (env : ParamStoreEnv)
    (now : Nat) (st : CacheState) (event : List Record) (s3 : S3)
    (faults : Nat → FaultSpec)
    (h : (getConfig env now st).ret = none) :
    (lambdaHandler env now st event s3 faults).result =
        .configError "Configuration retrieval failed" ∧
      (lambdaHandler env now st event s3 faults).s3 = s3 ∧
      (lambdaHandler env now st event s3 faults).downloads = 0 := by
  simp [lambdaHandler, h]

/-- Closed check of C2 (amended) at the 3-of-4-parameters fetch: the
whole batch is reported as a configuration error with the object store
untouched and zero downloads. -/
theorem C2_config_unavailable_no_processing_witness :
    (getConfig envThreeParams 0 emptyCache).ret = none ∧
      ((lambdaHandler envThreeParams 0 emptyCache batchRecords batchS3
            noFaults).result =
          .configError "Configuration retrieval failed" ∧
        (lambdaHandler envThreeParams 0 emptyCache batchRecords batchS3
            noFaults).s3 = batchS3 ∧
        (lambdaHandler envThreeParams 0 emptyCache batchRecords batchS3
            noFaults).downloads = 0) :=
  ⟨by decide,
    C2_config_unavailable_no_processing envThreeParams 0 emptyCache
      batchRecords batchS3 noFaults (by decide)⟩

end GelImage
